import Mathlib

/-!
Shallow embedding of the operation-lifecycle engine of the cptio runtime
(src/driver/mod.rs, src/io/completion.rs, src/time/mod.rs), together with
theorems checking the natural-language specification against it.

Machine integers are modelled as Nat (all the values involved are small and
non-negative except cqe results, which are Int); fallible or aborting code
returns Option / Except, with none / error marking a panic or unreachable
branch.
-/

namespace Cptio

/-- u64::MAX, the sentinel user-data reserved for fire-and-forget descriptors. -/
def U64_MAX : Nat := 2 ^ 64 - 1

/-- Modelled from the io_uring crate (external dependency):
cqueue::more(flags) tests the IORING_CQE_F_MORE bit (1 << 1). -/
def cqueue.moreFlag (flags : Nat) : Bool := flags.testBit 1

/-- Modelled from the io_uring crate (external dependency):
cqueue::buffer_select(flags) returns Some(flags >> 16 as u16) when the
IORING_CQE_F_BUFFER bit (1 << 0) is set. -/
def cqueue.buffer_select (flags : Nat) : Option Nat :=
  if flags.testBit 0 then some ((flags >>> 16) % 2 ^ 16) else none

/-- std::task::Waker, modelled by an identity; Waker::will_wake compares the
underlying (data pointer, vtable) pair, modelled as identity equality. -/
structure Waker where
  id : Nat
deriving DecidableEq, Repr

def Waker.will_wake (w other : Waker) : Bool := w.id == other.id

/-- A borrowed view into the registered buffer pool (crate::buffer::Buf). -/
structure Buf where
  bid : Nat
  len : Nat
deriving DecidableEq, Repr

/-- The registered buffer ring; only the per-buffer length is relevant here. -/
structure BufRing where
  bufLen : Nat
deriving DecidableEq, Repr

/-- Modelled from the spec: crate::buffer is not under src/. `get_buf` converts
a kernel-reported buffer index and returned length into a borrowed view whose
length is clamped to the configured per-buffer length. -/
def BufRing.get_buf (r : BufRing) (len bid : Nat) : Buf :=
  { bid := bid, len := min len r.bufLen }

/-- Buffer-pool side effects recorded during dispatch: acquiring a buffer view
for a successful read, or releasing the index on a failed one (drop_buf). -/
inductive BufEvent where
  | acquire (bid : Nat)
  | release (bid : Nat)
deriving DecidableEq, Repr

/-- A raw kernel completion-queue entry. -/
structure CqeEntry where
  result : Int
  user_data : Nat
  flags : Nat
deriving DecidableEq, Repr

deriving instance DecidableEq for Except

/-- CqeResult from src/driver/mod.rs: result is Ok(count) for res >= 0, else
Err(os error -res); buf is attached during dispatch when a buffer was
selected. -/
structure CqeResult where
  result : Except Nat Nat
  flags : Nat
  buf : Option Buf
deriving DecidableEq, Repr

/-- From cqueue::Entry for CqeResult (src/driver/mod.rs). -/
def CqeResult.ofEntry (e : CqeEntry) : CqeResult :=
  { result := if 0 ≤ e.result then Except.ok e.result.toNat else Except.error (-e.result).toNat
    flags := e.flags
    buf := none }

/-- The first half of Lifecycle::complete (src/driver/mod.rs lines 197-208):
convert the raw entry and handle buffer selection: on success attach a
borrowed view, on failure release the index. -/
def convertCqe (ring : BufRing) (e : CqeEntry) : CqeResult × List BufEvent :=
  let cqe := CqeResult.ofEntry e
  match cqueue.buffer_select cqe.flags with
  | some bid =>
    match cqe.result with
    | Except.ok len => ({ cqe with buf := some (ring.get_buf len bid) }, [BufEvent.acquire bid])
    | Except.error _ => (cqe, [BufEvent.release bid])
  | none => (cqe, [])

/-- Lifecycle from src/driver/mod.rs. Ignored holds the boxed payload
(Box<dyn Any> around Option<T>), modelled by an Option P. -/
inductive Lifecycle (P : Type) where
  | Submitted : Lifecycle P
  | Waiting (w : Waker) : Lifecycle P
  | Completed (c : CqeResult) : Lifecycle P
  | CompletionList (l : List CqeResult) : Lifecycle P
  | Ignored (p : Option P) : Lifecycle P
deriving DecidableEq, Repr

/-- Result of one Lifecycle::complete transition: the state left in the slot,
the returned bool (true = the caller should remove the slot), the wakers that
were woken, and the buffer-pool events. -/
structure CompleteOut (P : Type) where
  state : Lifecycle P
  collect : Bool
  woken : List Waker
  events : List BufEvent
deriving DecidableEq, Repr

/-- Lifecycle::complete (src/driver/mod.rs lines 197-237). none models the
unreachable! abort on an already-Completed slot. In the Ignored-terminal arm
the mem::replace residue Submitted is left in the slot, which the caller then
removes. -/
def Lifecycle.complete {P : Type} (self : Lifecycle P) (e : CqeEntry) (ring : BufRing) :
    Option (CompleteOut P) :=
  let conv := convertCqe ring e
  let cqe := conv.1
  let evs := conv.2
  match self with
  | .Submitted =>
    some ⟨if cqueue.moreFlag cqe.flags then .CompletionList [cqe] else .Completed cqe,
      false, [], evs⟩
  | .Waiting w =>
    some ⟨if cqueue.moreFlag cqe.flags then .CompletionList [cqe] else .Completed cqe,
      false, [w], evs⟩
  | .CompletionList l =>
    some ⟨.CompletionList (l ++ [cqe]), false, [], evs⟩
  | .Ignored p =>
    if cqueue.moreFlag cqe.flags then some ⟨.Ignored p, false, [], evs⟩
    else some ⟨.Submitted, true, [], evs⟩
  | .Completed _ => none

/-- The operation table (slab::Slab): dense small-integer keys over optional
slots; insert reuses the first vacant index or appends. -/
structure Slab (α : Type) where
  entries : List (Option α)
deriving DecidableEq, Repr

def Slab.get {α : Type} (s : Slab α) (k : Nat) : Option α :=
  (s.entries[k]?).getD none

def Slab.set {α : Type} (s : Slab α) (k : Nat) (v : α) : Slab α :=
  ⟨s.entries.set k (some v)⟩

def Slab.remove {α : Type} (s : Slab α) (k : Nat) : Slab α :=
  ⟨s.entries.set k none⟩

/-- First vacant index of the slot list (the dense-key reuse discipline). -/
def firstVacant {α : Type} : List (Option α) → Nat
  | [] => 0
  | none :: _ => 0
  | some _ :: rest => firstVacant rest + 1

/-- Insert into the slab at the first vacant key, returning the key. -/
def Slab.insert {α : Type} (s : Slab α) (v : α) : Slab α × Nat :=
  let k := firstVacant s.entries
  if k < s.entries.length then (⟨s.entries.set k (some v)⟩, k)
  else (⟨s.entries ++ [some v]⟩, k)

/-- A submission-queue entry: an opcode with its argument, and the user-data
stamp. -/
inductive SqeOp where
  | asyncCancel (target : Nat)
  | plain (tag : Nat)
deriving DecidableEq, Repr

structure Sqe where
  code : SqeOp
  user_data : Nat
deriving DecidableEq, Repr

/-- The cancellation descriptor built in Drop for Op:
opcode::AsyncCancel::new(key as u64).build().user_data(u64::MAX). -/
def cancelSqe (key : Nat) : Sqe :=
  { code := SqeOp.asyncCancel key, user_data := U64_MAX }

/-- Whether the last buffered record of a completion list carries the more
flag (the drop-time test in Drop for Op, src/driver/mod.rs lines 344-349). -/
def lastMore (l : List CqeResult) : Bool :=
  match l.getLast? with
  | some c => cqueue.moreFlag c.flags
  | none => false

/-- Drop for Op (src/driver/mod.rs lines 327-366): given the handle's key, its
remaining payload and the table, returns the table afterwards and the list of
cancellation descriptors submitted. none models the unreachable! abort on an
Ignored slot. A vacant key returns immediately, leaving everything unchanged. -/
def Op.dropRun {P : Type} (key : Nat) (op : Option P) (ops : Slab (Lifecycle P)) :
    Option (Slab (Lifecycle P) × List Sqe) :=
  match ops.get key with
  | none => some (ops, [])
  | some lc =>
    match lc with
    | .Submitted => some (ops.set key (.Ignored op), [cancelSqe key])
    | .Waiting _ => some (ops.set key (.Ignored op), [cancelSqe key])
    | .Completed _ => some (ops.remove key, [])
    | .CompletionList l =>
      if lastMore l then some (ops.set key (.Ignored op), [cancelSqe key])
      else some (ops.remove key, [])
    | .Ignored _ => none

/-- The Completable trait (src/driver/mod.rs lines 240-247), as an explicit
dictionary: complete consumes the payload on the terminal record, update
accumulates a non-terminal record. -/
structure CompletableImpl (T Out : Type) where
  complete : T → CqeResult → Out
  update : T → CqeResult → T

/-- One observable payload-hook invocation, used to state call orderings. -/
inductive PCall where
  | update (c : CqeResult)
  | complete (c : CqeResult)
deriving DecidableEq, Repr

/-- The loop body of the CompletionList arm of Op::poll2: walk the buffered
records in order, calling update on each record with the more flag set, and
stopping at the first terminal record. Returns the payload afterwards, the
terminal record if one was reached, and the trace of update calls. -/
def walkList {T Out : Type} (C : CompletableImpl T Out) (t : T) :
    List CqeResult → T × Option CqeResult × List PCall
  | [] => (t, none, [])
  | c :: rest =>
    if cqueue.moreFlag c.flags then
      let r := walkList C (C.update t c) rest
      (r.1, r.2.1, PCall.update c :: r.2.2)
    else (t, some c, [])

/-- Poll poll result plus every observable effect of one Op::poll2 call. -/
structure PollOut (T Out : Type) where
  ops : Slab (Lifecycle T)
  op : Option T
  ready : Option Out
  wakes : List Waker
  calls : List PCall
deriving DecidableEq, Repr

/-- Op::poll2 (src/driver/mod.rs lines 271-324). none models a panic: the
expect invalid-key lookup, the unwrap of an absent payload, or the
unreachable! Ignored arm. ready = none is Poll::Pending. -/
def Op.poll2 {T Out : Type} (C : CompletableImpl T Out) (key : Nat) (op : Option T)
    (ops : Slab (Lifecycle T)) (cxWaker : Waker) : Option (PollOut T Out) :=
  match ops.get key with
  | none => none
  | some lc =>
    match lc with
    | .Submitted =>
      some ⟨ops.set key (.Waiting cxWaker), op, none, [], []⟩
    | .Waiting w =>
      let w2 := if ¬ w.will_wake cxWaker then cxWaker else w
      some ⟨ops.set key (.Waiting w2), op, none, [], []⟩
    | .Completed cqe =>
      match op with
      | none => none
      | some t =>
        some ⟨ops.remove key, none, some (C.complete t cqe), [], [PCall.complete cqe]⟩
    | .CompletionList l =>
      match op with
      | none => none
      | some t =>
        let r := walkList C t l
        let updated := ¬ r.2.2.isEmpty
        let wakes := if updated then [cxWaker] else []
        let newLc := match r.2.1 with
          | none => Lifecycle.Waiting cxWaker
          | some cqe => Lifecycle.Completed cqe
        some ⟨ops.set key newLc, some r.1, none, wakes, r.2.2⟩
    | .Ignored _ => none

/-- The completion-drain loop of Inner::wait (src/driver/mod.rs lines 135-146):
for each entry, a sentinel user-data is skipped; otherwise the slot is looked
up (a vacant key panics via the slab Index), complete is invoked, and the slot
is removed exactly when complete returned true. Wakes and buffer events are
accumulated in delivery order; none models a panic or unreachable abort. -/
def dispatchCqes {P : Type} (ring : BufRing) (ops : Slab (Lifecycle P)) :
    List CqeEntry → Option (Slab (Lifecycle P) × List Waker × List BufEvent)
  | [] => some (ops, [], [])
  | e :: rest =>
    if e.user_data == U64_MAX then dispatchCqes ring ops rest
    else
      match ops.get e.user_data with
      | none => none
      | some lc =>
        match lc.complete e ring with
        | none => none
        | some out =>
          let ops2 :=
            if out.collect then (ops.set e.user_data out.state).remove e.user_data
            else ops.set e.user_data out.state
          match dispatchCqes ring ops2 rest with
          | none => none
          | some r => some (r.1, out.woken ++ r.2.1, out.events ++ r.2.2)

/-- Raw OS errors relevant to buffer-ring registration. -/
inductive OsErr where
  | EINVAL
  | EEXIST
  | otherErr (code : Nat)
deriving DecidableEq, Repr

/-- io::ErrorKind values that appear in the driver sources. -/
inductive ErrorKind where
  | Other
  | Unsupported
  | Interrupted
deriving DecidableEq, Repr

/-- Tags standing for the distinct formatted message strings built by
Inner::register_buf_ring. -/
inductive ErrMsg where
  | bufRingNot519
  | bufRingBgidExists
  | bufRingOtherFailure
  | ringCreateFailure
deriving DecidableEq, Repr

structure IoErr where
  kind : ErrorKind
  msg : ErrMsg
deriving DecidableEq, Repr

/-- Inner::register_buf_ring (src/driver/mod.rs lines 63-110), as a function of
the OS error the kernel registration returns (none for success): EINVAL maps
to an Other-kind error whose message says the kernel is most likely not 5.19+,
EEXIST to an Other-kind error naming the duplicate group id, and anything else
to an Other-kind generic registration error. -/
def Inner.register_buf_ring (res : Option OsErr) : Except IoErr Unit :=
  match res with
  | none => Except.ok ()
  | some OsErr.EINVAL => Except.error ⟨ErrorKind.Other, ErrMsg.bufRingNot519⟩
  | some OsErr.EEXIST => Except.error ⟨ErrorKind.Other, ErrMsg.bufRingBgidExists⟩
  | some (OsErr.otherErr _) => Except.error ⟨ErrorKind.Other, ErrMsg.bufRingOtherFailure⟩

/-- The kernel capabilities a driver construction can observe. -/
structure Kernel where
  ringCreateOk : Bool
  fastPoll : Bool
  provideBuffersSupported : Bool
  bufRingRegister : Option OsErr
deriving DecidableEq, Repr

/-- Inner::new (src/driver/mod.rs lines 47-61): create the 256-entry ring,
build the buffer ring (never touching kernel features), then register it,
propagating register_buf_ring errors. No fast-poll or provide-buffers probe
happens on this path. -/
def Inner.new (k : Kernel) : Except IoErr Unit :=
  if ¬ k.ringCreateOk then Except.error ⟨ErrorKind.Other, ErrMsg.ringCreateFailure⟩
  else
    match Inner.register_buf_ring k.bufRingRegister with
    | Except.error e => Except.error e
    | Except.ok _ => Except.ok ()

/-- Completion::get (src/io/completion.rs lines 29-52): the fast-poll feature
and ProvideBuffers probe checks end in panic (not an error return) when they
fail. none models those panics; some () is a constructed Completion. -/
def Completion.get (k : Kernel) : Option Unit :=
  if ¬ k.fastPoll then none
  else if ¬ k.provideBuffersSupported then none
  else some ()

/-- The submission side of the io_uring ring: entries pushed but not yet
handed to the kernel, and the entries the kernel has received, in order. -/
structure Ring where
  capacity : Nat
  pending : List Sqe
  kernel : List Sqe
deriving DecidableEq, Repr

def Ring.isFull (r : Ring) : Bool := r.pending.length == r.capacity

/-- ring.submit(): hand every pending entry to the kernel without waiting for
completions. -/
def Ring.flushToKernel (r : Ring) : Ring :=
  { r with pending := [], kernel := r.kernel ++ r.pending }

/-- Kernel entry points invoked while submitting; submit never waits. -/
inductive RingCall where
  | submitCall
  | submitAndWaitCall (n : Nat)
deriving DecidableEq, Repr

/-- Inner::submit (src/driver/mod.rs lines 112-122): flush first only when the
submission queue is full; then sync (no observable effect), push (a full queue
at this point would panic: none), and submit. Returns the ring, whether the
full-queue pre-flush fired, and the kernel calls made. -/
def Inner.submitSqe (r : Ring) (sqe : Sqe) : Option (Ring × Bool × List RingCall) :=
  let pre := if r.isFull then (r.flushToKernel, true, [RingCall.submitCall]) else (r, false, [])
  if pre.1.pending.length < pre.1.capacity then
    let pushed := { pre.1 with pending := pre.1.pending ++ [sqe] }
    some (pushed.flushToKernel, pre.2.1, pre.2.2 ++ [RingCall.submitCall])
  else none

/-- Driver state relevant to submission: the ring and the operation table. -/
structure DriverSt where
  ring : Ring
  ops : Slab (Lifecycle Unit)
deriving Repr

/-- Inner::submit_op (src/driver/mod.rs lines 150-159): insert a Submitted
slot, stamp the descriptor's user-data with the key, and submit it. -/
def Inner.submit_op (st : DriverSt) (sqe : Sqe) :
    Option (DriverSt × Nat × Bool × List RingCall) :=
  let ins := st.ops.insert Lifecycle.Submitted
  let sqe2 := { sqe with user_data := ins.2 }
  match Inner.submitSqe st.ring sqe2 with
  | none => none
  | some r => some (⟨r.1, ins.1⟩, ins.2, r.2.1, r.2.2)

/-- Run n submissions of fresh plain descriptors, counting how many fired the
full-queue pre-flush. -/
def runSubmits : Nat → DriverSt → Option (DriverSt × Nat)
  | 0, st => some (st, 0)
  | n + 1, st =>
    match Inner.submit_op st { code := SqeOp.plain 0, user_data := 0 } with
    | none => none
    | some r =>
      match runSubmits n r.1 with
      | none => none
      | some rest => some (rest.1, (if r.2.2.1 then 1 else 0) + rest.2)

/-- A fresh driver: 256-entry submission queue (IoUring::new(256)), empty
table. -/
def freshDriver : DriverSt :=
  { ring := { capacity := 256, pending := [], kernel := [] }, ops := ⟨[]⟩ }

def MAX_MSG_LEN : Nat := 2048
def BUFFERS_COUNT : Nat := 4096

/-- The provide-buffers pool of the Completion variant
(src/io/completion.rs): BUFFERS_COUNT vectors of MAX_MSG_LEN zero bytes. -/
structure CompletionBufs where
  buffers : List (List Nat)
deriving DecidableEq, Repr

/-- Completion::get_data (src/io/completion.rs lines 23-27):
self.buffers.get(bid).map(|v| v[..v.len().max(len)].to_vec()). The outer none
models the slice-out-of-range panic when v.len().max(len) exceeds v.len();
the inner Option is the function's own Option return. -/
def Completion.get_data (c : CompletionBufs) (bid len : Nat) :
    Option (Option (List Nat)) :=
  match c.buffers[bid]? with
  | none => some none
  | some v =>
    let hi := max v.length len
    if hi ≤ v.length then some (some (v.take hi)) else none

/-- Modelled from the spec, for comparison with Completion.get_data: acquire
clamps the view to min of the reported length and the per-buffer length and
never panics. -/
def get_data_spec (c : CompletionBufs) (bid len : Nat) : Option (List Nat) :=
  (c.buffers[bid]?).map (fun v => v.take (min len v.length))

/-- The pool as constructed by Completion::get:
vec![vec![0u8; MAX_MSG_LEN]; BUFFERS_COUNT]. -/
def stdBuffers : CompletionBufs :=
  ⟨List.replicate BUFFERS_COUNT (List.replicate MAX_MSG_LEN 0)⟩

/-- The waker-store discipline of Timer::poll_timeout (src/time/mod.rs lines
62-71): an absent stored waker is set; a present one is replaced only when it
would not wake the polling context. -/
def Timer.updateWaker (stored : Option Waker) (cx : Waker) : Option Waker :=
  match stored with
  | some w => if ¬ w.will_wake cx then some cx else some w
  | none => some cx

/-! Helper lemmas shared by the claim theorems. -/

theorem Slab.get_some_lt {α : Type} {s : Slab α} {k : Nat} {v : α}
    (h : s.get k = some v) : k < s.entries.length := by
  by_contra hk
  rw [Slab.get, List.getElem?_eq_none (Nat.le_of_not_lt hk)] at h
  simp at h

theorem Slab.get_set_self {α : Type} (s : Slab α) (k : Nat) (v : α)
    (h : k < s.entries.length) : (s.set k v).get k = some v := by
  rw [Slab.get, Slab.set]
  show ((s.entries.set k (some v))[k]?).getD none = some v
  rw [List.getElem?_set_self h]
  rfl

theorem convertCqe_flags (ring : BufRing) (e : CqeEntry) :
    (convertCqe ring e).1.flags = e.flags := by
  rw [convertCqe]
  rcases h : cqueue.buffer_select (CqeResult.ofEntry e).flags with _ | bid <;>
    simp only [h]
  · rfl
  · rcases hr : (CqeResult.ofEntry e).result with n | n <;> simp only [hr] <;> rfl

/-! Claim theorems. -/

/-- C1: the complete(record) transition follows the state table: from
Submitted or Waiting, a terminal record (more flag clear) moves the slot to
Completed(record) and a non-terminal record moves it to CompletionList with
just that record, in both cases retaining the slot (collect = false) and
waking the stored waker exactly when the slot was Waiting; from
CompletionList the record is appended and the slot retained; from
Abandoned (Ignored) a terminal record reports collect and a non-terminal one
leaves the payload Abandoned; complete on an already-Completed slot aborts. -/
theorem lifecycle_complete_table {P : Type} (e : CqeEntry) (ring : BufRing)
    (w : Waker) (l : List CqeResult) (p : Option P) (c : CqeResult) :
    (cqueue.moreFlag e.flags = false →
      Lifecycle.complete (Lifecycle.Submitted : Lifecycle P) e ring =
        some ⟨Lifecycle.Completed (convertCqe ring e).1, false, [], (convertCqe ring e).2⟩ ∧
      Lifecycle.complete (Lifecycle.Waiting w : Lifecycle P) e ring =
        some ⟨Lifecycle.Completed (convertCqe ring e).1, false, [w], (convertCqe ring e).2⟩ ∧
      Lifecycle.complete (Lifecycle.Ignored p) e ring =
        some ⟨Lifecycle.Submitted, true, [], (convertCqe ring e).2⟩) ∧
    (cqueue.moreFlag e.flags = true →
      Lifecycle.complete (Lifecycle.Submitted : Lifecycle P) e ring =
        some ⟨Lifecycle.CompletionList [(convertCqe ring e).1], false, [], (convertCqe ring e).2⟩ ∧
      Lifecycle.complete (Lifecycle.Waiting w : Lifecycle P) e ring =
        some ⟨Lifecycle.CompletionList [(convertCqe ring e).1], false, [w], (convertCqe ring e).2⟩ ∧
      Lifecycle.complete (Lifecycle.Ignored p) e ring =
        some ⟨Lifecycle.Ignored p, false, [], (convertCqe ring e).2⟩) ∧
    Lifecycle.complete (Lifecycle.CompletionList l : Lifecycle P) e ring =
      some ⟨Lifecycle.CompletionList (l ++ [(convertCqe ring e).1]), false, [], (convertCqe ring e).2⟩ ∧
    Lifecycle.complete (Lifecycle.Completed c : Lifecycle P) e ring = none := by
  have hf := convertCqe_flags ring e
  refine ⟨fun hm => ?_, fun hm => ?_, ?_, ?_⟩
  · refine ⟨?_, ?_, ?_⟩ <;> · simp only [Lifecycle.complete, hf, hm]; simp
  · refine ⟨?_, ?_, ?_⟩ <;> · simp only [Lifecycle.complete, hf, hm]; simp
  · simp only [Lifecycle.complete]
  · rfl

/-- Witness for C1 at a concrete terminal completion delivered to a Waiting
slot. -/
theorem lifecycle_complete_table_witness :
    Lifecycle.complete (Lifecycle.Waiting ⟨5⟩ : Lifecycle Unit)
        { result := 17, user_data := 0, flags := 0 } { bufLen := 4096 } =
      some ⟨Lifecycle.Completed ⟨Except.ok 17, 0, none⟩, false, [⟨5⟩], []⟩ := by
  have h := (lifecycle_complete_table (P := Unit)
    { result := 17, user_data := 0, flags := 0 } { bufLen := 4096 }
    ⟨5⟩ [] none ⟨Except.ok 17, 0, none⟩).1 (by decide)
  exact h.2.1.trans (by decide)

/-- C2: dropping a Handle whose slot is Submitted or Waiting moves the payload
into the slot (Ignored) and submits exactly one cancel-by-user-data
descriptor whose own user-data is the all-ones sentinel; dropping with a
Completed slot removes the slot and submits zero cancellations; dropping with
a CompletionList slot abandons and cancels only if the last buffered record
was non-terminal, and otherwise just removes the slot. -/
theorem op_drop_table {P : Type} (key : Nat) (op : Option P)
    (ops : Slab (Lifecycle P)) (w : Waker) (c : CqeResult) (l : List CqeResult) :
    (cancelSqe key).code = SqeOp.asyncCancel key ∧
    (cancelSqe key).user_data = U64_MAX ∧
    (ops.get key = some Lifecycle.Submitted →
      Op.dropRun key op ops = some (ops.set key (Lifecycle.Ignored op), [cancelSqe key])) ∧
    (ops.get key = some (Lifecycle.Waiting w) →
      Op.dropRun key op ops = some (ops.set key (Lifecycle.Ignored op), [cancelSqe key])) ∧
    (ops.get key = some (Lifecycle.Completed c) →
      Op.dropRun key op ops = some (ops.remove key, [])) ∧
    (ops.get key = some (Lifecycle.CompletionList l) → lastMore l = true →
      Op.dropRun key op ops = some (ops.set key (Lifecycle.Ignored op), [cancelSqe key])) ∧
    (ops.get key = some (Lifecycle.CompletionList l) → lastMore l = false →
      Op.dropRun key op ops = some (ops.remove key, [])) := by
  refine ⟨rfl, rfl, fun h => ?_, fun h => ?_, fun h => ?_, fun h hm => ?_, fun h hm => ?_⟩
  · simp only [Op.dropRun, h]
  · simp only [Op.dropRun, h]
  · simp only [Op.dropRun, h]
  · simp only [Op.dropRun, h, hm]; simp
  · simp only [Op.dropRun, h, hm]; simp

/-- Witness for C2 at a concrete Waiting slot. -/
theorem op_drop_table_witness :
    Op.dropRun 0 (some 7) (⟨[some (Lifecycle.Waiting ⟨3⟩)]⟩ : Slab (Lifecycle Nat)) =
      some (⟨[some (Lifecycle.Ignored (some 7))]⟩, [cancelSqe 0]) := by
  have h := (op_drop_table (P := Nat) 0 (some 7)
    ⟨[some (Lifecycle.Waiting ⟨3⟩)]⟩ ⟨3⟩ ⟨Except.ok 0, 0, none⟩ []).2.2.2.1 (by decide)
  exact h.trans (by decide)

theorem walkList_all_more {T Out : Type} (C : CompletableImpl T Out) (nts : List CqeResult)
    (hnt : ∀ c ∈ nts, cqueue.moreFlag c.flags = true) :
    ∀ t : T, walkList C t nts = (nts.foldl C.update t, none, nts.map PCall.update) := by
  induction nts with
  | nil => intro t; rfl
  | cons c rest ih =>
    intro t
    have hc : cqueue.moreFlag c.flags = true := hnt c (List.mem_cons_self _ _)
    simp only [walkList, hc, if_pos, List.foldl_cons, List.map_cons]
    rw [ih (fun x hx => hnt x (List.mem_cons_of_mem _ hx)) (C.update t c)]

theorem walkList_append_terminal {T Out : Type} (C : CompletableImpl T Out)
    (nts : List CqeResult) (tc : CqeResult)
    (hnt : ∀ c ∈ nts, cqueue.moreFlag c.flags = true)
    (ht : cqueue.moreFlag tc.flags = false) :
    ∀ t : T, walkList C t (nts ++ [tc]) = (nts.foldl C.update t, some tc, nts.map PCall.update) := by
  induction nts with
  | nil => intro t; simp [walkList, ht]
  | cons c rest ih =>
    intro t
    have hc : cqueue.moreFlag c.flags = true := hnt c (List.mem_cons_self _ _)
    simp only [List.cons_append, walkList, hc, if_pos, List.foldl_cons, List.map_cons,
      List.append_eq]
    rw [ih (fun x hx => hnt x (List.mem_cons_of_mem _ hx)) (C.update t c)]

/-- C3: polling a Handle whose slot holds a completion list walks the buffered
records in delivery order: each non-terminal record produces one update call;
when the terminal record is reached the slot becomes Completed with it and
the polling task is re-woken; with no terminal buffered the slot returns to
Waiting on the current waker; the poll returns Pending in every case; and K
buffered non-terminal records followed by one terminal produce exactly the K
update calls of the first poll followed by exactly one complete call on the
next poll, in that order. -/
theorem poll_completion_list {T Out : Type} (C : CompletableImpl T Out) (key : Nat)
    (t : T) (ops : Slab (Lifecycle T)) (cxw cxw2 : Waker)
    (nts : List CqeResult) (tc : CqeResult)
    (hne : nts ≠ [])
    (hnt : ∀ c ∈ nts, cqueue.moreFlag c.flags = true)
    (ht : cqueue.moreFlag tc.flags = false) :
    (ops.get key = some (Lifecycle.CompletionList (nts ++ [tc])) →
      Op.poll2 C key (some t) ops cxw =
        some ⟨ops.set key (Lifecycle.Completed tc), some (nts.foldl C.update t), none, [cxw],
          nts.map PCall.update⟩ ∧
      Op.poll2 C key (some (nts.foldl C.update t)) (ops.set key (Lifecycle.Completed tc)) cxw2 =
        some ⟨(ops.set key (Lifecycle.Completed tc)).remove key, none,
          some (C.complete (nts.foldl C.update t) tc), [], [PCall.complete tc]⟩) ∧
    (ops.get key = some (Lifecycle.CompletionList nts) →
      Op.poll2 C key (some t) ops cxw =
        some ⟨ops.set key (Lifecycle.Waiting cxw), some (nts.foldl C.update t), none, [cxw],
          nts.map PCall.update⟩) := by
  have hupd : (nts.map PCall.update).isEmpty = false := by
    cases nts with
    | nil => exact absurd rfl hne
    | cons a l => rfl
  constructor
  · intro hget
    constructor
    · simp only [Op.poll2, hget]
      rw [walkList_append_terminal C nts tc hnt ht t]
      simp [hupd]
    · have hlt : key < ops.entries.length := Slab.get_some_lt hget
      have hget2 : (ops.set key (Lifecycle.Completed tc)).get key =
          some (Lifecycle.Completed tc) := Slab.get_set_self ops key _ hlt
      simp only [Op.poll2, hget2]
  · intro hget
    simp only [Op.poll2, hget]
    rw [walkList_all_more C nts hnt t]
    simp [hupd]

/-- Witness for C3: one buffered non-terminal record then the terminal; the
first poll performs the single update and re-wakes, the second poll completes. -/
theorem poll_completion_list_witness :
    Op.poll2 (⟨fun t _ => t, fun t _ => t + 1⟩ : CompletableImpl Nat Nat) 0 (some 10)
        (⟨[some (Lifecycle.CompletionList
          [⟨Except.ok 1, 2, none⟩, ⟨Except.ok 0, 0, none⟩])]⟩ : Slab (Lifecycle Nat)) ⟨1⟩ =
      some ⟨⟨[some (Lifecycle.Completed ⟨Except.ok 0, 0, none⟩)]⟩, some 11, none, [⟨1⟩],
        [PCall.update ⟨Except.ok 1, 2, none⟩]⟩ := by
  have h := ((poll_completion_list (⟨fun t _ => t, fun t _ => t + 1⟩ : CompletableImpl Nat Nat)
    0 10 ⟨[some (Lifecycle.CompletionList [⟨Except.ok 1, 2, none⟩, ⟨Except.ok 0, 0, none⟩])]⟩
    ⟨1⟩ ⟨2⟩ [⟨Except.ok 1, 2, none⟩] ⟨Except.ok 0, 0, none⟩
    (by decide) (by decide) (by decide)).1 (by decide)).1
  exact h.trans (by decide)

/-- C4 counterexample: the claim lists a one-shot completion on an
already-consumed (Completed) slot as a collectable case, but delivering a
terminal completion to a Completed slot hits the unreachable! protocol-bug
abort: the dispatcher run dies (none) instead of reporting the slot
collectable and removing it. -/
theorem dispatch_consumed_slot_aborts :
    dispatchCqes { bufLen := 4096 }
        (⟨[some (Lifecycle.Completed ⟨Except.ok 0, 0, none⟩)]⟩ : Slab (Lifecycle Unit))
        [{ result := 1, user_data := 0, flags := 0 }] = none ∧
    Lifecycle.complete (Lifecycle.Completed ⟨Except.ok 0, 0, none⟩ : Lifecycle Unit)
        { result := 1, user_data := 0, flags := 0 } { bufLen := 4096 } = none := by
  exact ⟨by decide, by decide⟩

/-- C4 as amended: while draining completions the dispatcher discards any
completion whose user-data equals the all-ones sentinel without touching any
slot; after delivering a completion to a slot it removes that slot exactly
when the transition reported it collectable; and the transition reports
collectable exactly when a terminal completion is delivered to an Abandoned
(Ignored) slot — a completion for an already-Completed slot aborts instead. -/
theorem dispatch_removal_discipline {P : Type} (ring : BufRing)
    (ops : Slab (Lifecycle P)) (e : CqeEntry) (rest : List CqeEntry)
    (lc : Lifecycle P) (out : CompleteOut P) :
    (e.user_data = U64_MAX →
      dispatchCqes ring ops (e :: rest) = dispatchCqes ring ops rest) ∧
    (e.user_data ≠ U64_MAX → ops.get e.user_data = some lc →
      Lifecycle.complete lc e ring = some out →
      dispatchCqes ring ops [e] =
        some (if out.collect then (ops.set e.user_data out.state).remove e.user_data
          else ops.set e.user_data out.state, out.woken, out.events)) ∧
    (Lifecycle.complete lc e ring = some out →
      (out.collect = true ↔
        (∃ p, lc = Lifecycle.Ignored p) ∧ cqueue.moreFlag e.flags = false)) := by
  have hf := convertCqe_flags ring e
  refine ⟨fun hs => ?_, fun hs hget hc => ?_, fun hc => ?_⟩
  · simp [dispatchCqes, hs]
  · have hs2 : (e.user_data == U64_MAX) = false := by
      simp [hs]
    simp only [dispatchCqes, hs2, Bool.false_eq_true, if_neg, hget, hc]
    cases out.collect <;> simp [dispatchCqes]
  · cases lc with
    | Submitted =>
      simp only [Lifecycle.complete] at hc
      obtain rfl := (Option.some_injective _ hc).symm
      simp
    | Waiting w =>
      simp only [Lifecycle.complete] at hc
      obtain rfl := (Option.some_injective _ hc).symm
      simp
    | Completed c => exact absurd hc (by simp [Lifecycle.complete])
    | CompletionList l =>
      simp only [Lifecycle.complete] at hc
      obtain rfl := (Option.some_injective _ hc).symm
      simp
    | Ignored p =>
      simp only [Lifecycle.complete, hf] at hc
      by_cases hm : cqueue.moreFlag e.flags = true
      · rw [if_pos hm] at hc
        obtain rfl := (Option.some_injective _ hc).symm
        simp [hm]
      · rw [if_neg hm] at hc
        obtain rfl := (Option.some_injective _ hc).symm
        simp only [Bool.not_eq_true] at hm
        simp [hm]

/-- Witness for C4 (amended): a terminal completion delivered to an Abandoned
slot is removed from the table. -/
theorem dispatch_removal_discipline_witness :
    dispatchCqes { bufLen := 4096 }
        (⟨[some (Lifecycle.Ignored (some 3))]⟩ : Slab (Lifecycle Nat))
        [{ result := 1, user_data := 0, flags := 0 }] =
      some (⟨[none]⟩, [], []) := by
  have h := (dispatch_removal_discipline { bufLen := 4096 }
    (⟨[some (Lifecycle.Ignored (some 3))]⟩ : Slab (Lifecycle Nat))
    { result := 1, user_data := 0, flags := 0 } []
    (Lifecycle.Ignored (some 3)) ⟨Lifecycle.Submitted, true, [], []⟩).2.1
    (by decide) (by decide) (by decide)
  exact h.trans (by decide)

/-- C5: Completion::get_data slices v[..v.len().max(len)]: at the pool built
by the code (4096 buffers of MAX_MSG_LEN = 2048 bytes), a reported length of
4096 panics (slice out of range) instead of clamping, and a reported length
of 17 yields a view of length 2048 rather than min 17 2048 = 17, which the
spec-faithful clamp (get_data_spec) returns. -/
theorem get_data_not_clamped :
    Completion.get_data stdBuffers 0 4096 = none ∧
    (Completion.get_data stdBuffers 0 17).map (Option.map List.length) =
      some (some MAX_MSG_LEN) ∧
    (get_data_spec stdBuffers 0 17).map List.length = some 17 := by
  have h0 : stdBuffers.buffers[0]? = some (List.replicate MAX_MSG_LEN 0) := by
    rw [show stdBuffers.buffers = List.replicate BUFFERS_COUNT (List.replicate MAX_MSG_LEN 0)
      from rfl, List.getElem?_replicate]
    norm_num [BUFFERS_COUNT]
  refine ⟨?_, ?_, ?_⟩
  · simp only [Completion.get_data, h0, List.length_replicate]
    norm_num [MAX_MSG_LEN]
  · simp only [Completion.get_data, h0, List.length_replicate]
    rw [if_pos (by norm_num [MAX_MSG_LEN])]
    rw [List.take_replicate]
    simp only [Option.map_some', List.length_replicate]
    norm_num [MAX_MSG_LEN]
  · simp only [get_data_spec, h0, Option.map_some', List.length_replicate,
      List.take_replicate]
    norm_num [MAX_MSG_LEN]

/-- C6 counterexample: a kernel lacking fast-poll and provide-buffers but
accepting buffer-ring registration lets Driver construction succeed (there is
no feature probe on the Inner::new path), and a kernel rejecting buffer-ring
registration with EINVAL yields an error of kind Other, not Unsupported. -/
theorem driver_new_no_feature_probe :
    Inner.new ⟨true, false, false, none⟩ = Except.ok () ∧
    Inner.new ⟨true, true, true, some OsErr.EINVAL⟩ =
      Except.error ⟨ErrorKind.Other, ErrMsg.bufRingNot519⟩ ∧
    ErrorKind.Other ≠ ErrorKind.Unsupported := by
  exact ⟨by decide, by decide, by decide⟩

/-- C6 as amended: Driver construction refuses to start — returning, before
any operation can be submitted, an error of kind Other whose message says the
kernel is most likely not 5.19+ — when buffer-ring registration is rejected
with EINVAL; the Driver path itself probes no kernel feature, and the
fast-poll / provide-buffers checks of the separate Completion variant panic
(abort) rather than returning an error when the feature is absent. -/
theorem driver_new_refusal (k k2 : Kernel)
    (hr : k.ringCreateOk = true) (he : k.bufRingRegister = some OsErr.EINVAL) :
    Inner.new k = Except.error ⟨ErrorKind.Other, ErrMsg.bufRingNot519⟩ ∧
    (k2.fastPoll = false → Completion.get k2 = none) ∧
    (k2.fastPoll = true → k2.provideBuffersSupported = false →
      Completion.get k2 = none) := by
  refine ⟨?_, fun hf => ?_, fun hf hp => ?_⟩
  · simp [Inner.new, Inner.register_buf_ring, hr, he]
  · simp [Completion.get, hf]
  · simp [Completion.get, hf, hp]

/-- Witness for C6 (amended) at concrete kernels. -/
theorem driver_new_refusal_witness :
    Inner.new ⟨true, true, true, some OsErr.EINVAL⟩ =
      Except.error ⟨ErrorKind.Other, ErrMsg.bufRingNot519⟩ ∧
    Completion.get ⟨true, false, true, none⟩ = none := by
  have h := driver_new_refusal ⟨true, true, true, some OsErr.EINVAL⟩
    ⟨true, false, true, none⟩ (by decide) (by decide)
  exact ⟨h.1, h.2.1 (by decide)⟩

/-- C7 counterexample: on EINVAL the registration error's kind is Other, not
Unsupported, and on EEXIST it is also Other, not a distinct Conflict kind:
the three outcomes share one error kind. -/
theorem register_einval_kind_not_unsupported :
    Inner.register_buf_ring (some OsErr.EINVAL) =
      Except.error ⟨ErrorKind.Other, ErrMsg.bufRingNot519⟩ ∧
    Inner.register_buf_ring (some OsErr.EEXIST) =
      Except.error ⟨ErrorKind.Other, ErrMsg.bufRingBgidExists⟩ ∧
    ErrorKind.Other ≠ ErrorKind.Unsupported := by
  exact ⟨by decide, by decide, by decide⟩

/-- C7 as amended: buffer-ring registration fails with error kind Other in
all three cases — EINVAL (message: kernel most likely not 5.19+, i.e. too
old), EEXIST (message: the buffer group id was already registered), and any
other kernel error (generic registration-failure message) — so the three
outcomes are distinguishable by their messages, not by their error kind. -/
theorem register_buf_ring_error_taxonomy :
    Inner.register_buf_ring none = Except.ok () ∧
    Inner.register_buf_ring (some OsErr.EINVAL) =
      Except.error ⟨ErrorKind.Other, ErrMsg.bufRingNot519⟩ ∧
    Inner.register_buf_ring (some OsErr.EEXIST) =
      Except.error ⟨ErrorKind.Other, ErrMsg.bufRingBgidExists⟩ ∧
    (∀ code : Nat, Inner.register_buf_ring (some (OsErr.otherErr code)) =
      Except.error ⟨ErrorKind.Other, ErrMsg.bufRingOtherFailure⟩) ∧
    ErrMsg.bufRingNot519 ≠ ErrMsg.bufRingBgidExists ∧
    ErrMsg.bufRingNot519 ≠ ErrMsg.bufRingOtherFailure ∧
    ErrMsg.bufRingBgidExists ≠ ErrMsg.bufRingOtherFailure := by
  exact ⟨rfl, rfl, rfl, fun _ => rfl, by decide, by decide, by decide⟩

set_option maxRecDepth 100000 in
theorem submit_run_257 :
    (runSubmits 257 freshDriver).map (fun r => (r.2, r.1.ring.kernel.map Sqe.user_data)) =
      some (0, List.range 257) := by decide

/-- C8 counterexample: submitting 257 operations on a fresh driver without
draining produces zero full-queue in-line flushes (not 129: each submit call
hands its entry to the kernel immediately, so the 256-entry queue never
fills), while every descriptor does reach the kernel with its correct key. -/
theorem submit_257_zero_inline_flushes :
    (runSubmits 257 freshDriver).map (fun r => (r.2, r.1.ring.kernel.map Sqe.user_data)) =
      some (0, List.range 257) ∧ (0 : Nat) ≠ 129 := by
  exact ⟨submit_run_257, by decide⟩

/-- C8 as amended: submit flushes pending submissions to the kernel first
only when the submission queue is full, then synchronizes, pushes the
descriptor, and submits, never waiting for completions; and because each
submit call itself hands the pushed entry to the kernel, 257 submissions
without draining fire no in-line full-queue flush and every descriptor
reaches the kernel with its correct key. -/
theorem submit_algorithm (r : Ring) (sqe : Sqe) :
    (r.pending.length < r.capacity →
      Inner.submitSqe r sqe =
        some (⟨r.capacity, [], r.kernel ++ (r.pending ++ [sqe])⟩, false,
          [RingCall.submitCall])) ∧
    (r.pending.length = r.capacity → 0 < r.capacity →
      Inner.submitSqe r sqe =
        some (⟨r.capacity, [], r.kernel ++ r.pending ++ [sqe]⟩, true,
          [RingCall.submitCall, RingCall.submitCall])) ∧
    (∀ ring2 flushed calls, Inner.submitSqe r sqe = some (ring2, flushed, calls) →
      calls = [RingCall.submitCall] ∨
      calls = [RingCall.submitCall, RingCall.submitCall]) ∧
    (runSubmits 257 freshDriver).map
      (fun res => (res.2, res.1.ring.kernel.map Sqe.user_data)) =
      some (0, List.range 257) := by
  refine ⟨fun hlt => ?_, fun heq hpos => ?_, fun ring2 flushed calls hout => ?_, ?_⟩
  · have hfull : r.isFull = false := by
      simp only [Ring.isFull, beq_iff_eq]
      exact decide_eq_false (Nat.ne_of_lt hlt)
    simp [Inner.submitSqe, hfull, hlt, Ring.flushToKernel]
  · have hfull : r.isFull = true := by
      simp [Ring.isFull, heq]
    simp [Inner.submitSqe, hfull, hpos, Ring.flushToKernel]
  · rw [Inner.submitSqe] at hout
    rcases hfull : r.isFull <;> simp only [hfull, Bool.false_eq_true,
      if_true, if_false] at hout
    · split at hout
      · simp only [Option.some.injEq, Prod.mk.injEq, List.nil_append] at hout
        exact Or.inl hout.2.2.symm
      · simp at hout
    · split at hout
      · simp only [Option.some.injEq, Prod.mk.injEq] at hout
        exact Or.inr hout.2.2.symm
      · simp at hout
  · exact submit_run_257

/-- Witness for C8 (amended): a non-full ring pushes and submits without the
pre-flush; a full ring pre-flushes first; in both cases the descriptor
reaches the kernel after the earlier entries. -/
theorem submit_algorithm_witness :
    Inner.submitSqe ⟨2, [⟨SqeOp.plain 9, 9⟩], []⟩ ⟨SqeOp.plain 7, 7⟩ =
      some (⟨2, [], [⟨SqeOp.plain 9, 9⟩, ⟨SqeOp.plain 7, 7⟩]⟩, false,
        [RingCall.submitCall]) ∧
    Inner.submitSqe ⟨1, [⟨SqeOp.plain 9, 9⟩], []⟩ ⟨SqeOp.plain 7, 7⟩ =
      some (⟨1, [], [⟨SqeOp.plain 9, 9⟩, ⟨SqeOp.plain 7, 7⟩]⟩, true,
        [RingCall.submitCall, RingCall.submitCall]) := by
  constructor
  · exact ((submit_algorithm ⟨2, [⟨SqeOp.plain 9, 9⟩], []⟩ ⟨SqeOp.plain 7, 7⟩).1
      (by decide)).trans (by decide)
  · exact ((submit_algorithm ⟨1, [⟨SqeOp.plain 9, 9⟩], []⟩ ⟨SqeOp.plain 7, 7⟩).2.1
      (by decide) (by decide)).trans (by decide)

/-- C9: while a slot is Waiting, the stored waker is replaced by the polling
context's waker only when the stored waker would not already wake it; polling
twice with the same waker leaves the stored waker unchanged; polling with a
different waker replaces it; and the Timer waker store of poll_timeout obeys
the same discipline. -/
theorem waker_discipline {T Out : Type} (C : CompletableImpl T Out) (key : Nat)
    (op : Option T) (ops : Slab (Lifecycle T)) (w cxw : Waker)
    (hget : ops.get key = some (Lifecycle.Waiting w)) :
    (w.will_wake cxw = true →
      Op.poll2 C key op ops cxw =
        some ⟨ops.set key (Lifecycle.Waiting w), op, none, [], []⟩) ∧
    (w.will_wake cxw = false →
      Op.poll2 C key op ops cxw =
        some ⟨ops.set key (Lifecycle.Waiting cxw), op, none, [], []⟩) ∧
    (w.id ≠ cxw.id → w.will_wake cxw = false) ∧
    (Op.poll2 C key op
        (ops.set key (Lifecycle.Waiting (if w.will_wake cxw then w else cxw))) cxw =
      some ⟨(ops.set key (Lifecycle.Waiting (if w.will_wake cxw then w else cxw))).set key
        (Lifecycle.Waiting (if w.will_wake cxw then w else cxw)), op, none, [], []⟩) ∧
    Timer.updateWaker (some w) cxw = some (if w.will_wake cxw then w else cxw) ∧
    Timer.updateWaker (some (if w.will_wake cxw then w else cxw)) cxw =
      some (if w.will_wake cxw then w else cxw) := by
  have hrefl : ∀ v : Waker, v.will_wake v = true := by
    intro v
    simp [Waker.will_wake]
  have hlt : key < ops.entries.length := Slab.get_some_lt hget
  refine ⟨fun h => ?_, fun h => ?_, fun h => ?_, ?_, ?_, ?_⟩
  · simp [Op.poll2, hget, h]
  · simp [Op.poll2, hget, h]
  · simpa [Waker.will_wake] using h
  · rcases hww : w.will_wake cxw
    · have hget2 := Slab.get_set_self ops key (Lifecycle.Waiting cxw) hlt
      simp only [hww, Bool.false_eq_true, if_false]
      simp [Op.poll2, hget2, hrefl]
    · have hget2 := Slab.get_set_self ops key (Lifecycle.Waiting w) hlt
      simp only [hww, if_true]
      simp [Op.poll2, hget2, hww]
  · rcases hww : w.will_wake cxw <;> simp [Timer.updateWaker, hww]
  · rcases hww : w.will_wake cxw <;> simp [Timer.updateWaker, hww, hrefl]

/-- Witness for C9: polling a Waiting slot with a different waker replaces
the stored waker; with the same waker it is kept; the Timer store likewise. -/
theorem waker_discipline_witness :
    Op.poll2 (⟨fun t _ => t, fun t _ => t⟩ : CompletableImpl Nat Nat) 0 none
        (⟨[some (Lifecycle.Waiting ⟨1⟩)]⟩ : Slab (Lifecycle Nat)) ⟨2⟩ =
      some ⟨⟨[some (Lifecycle.Waiting ⟨2⟩)]⟩, none, none, [], []⟩ ∧
    Op.poll2 (⟨fun t _ => t, fun t _ => t⟩ : CompletableImpl Nat Nat) 0 none
        (⟨[some (Lifecycle.Waiting ⟨1⟩)]⟩ : Slab (Lifecycle Nat)) ⟨1⟩ =
      some ⟨⟨[some (Lifecycle.Waiting ⟨1⟩)]⟩, none, none, [], []⟩ := by
  constructor
  · exact ((waker_discipline (⟨fun t _ => t, fun t _ => t⟩ : CompletableImpl Nat Nat) 0 none
      (⟨[some (Lifecycle.Waiting ⟨1⟩)]⟩ : Slab (Lifecycle Nat)) ⟨1⟩ ⟨2⟩
      (by decide)).2.1 (by decide)).trans (by decide)
  · exact ((waker_discipline (⟨fun t _ => t, fun t _ => t⟩ : CompletableImpl Nat Nat) 0 none
      (⟨[some (Lifecycle.Waiting ⟨1⟩)]⟩ : Slab (Lifecycle Nat)) ⟨1⟩ ⟨1⟩
      (by decide)).1 (by decide)).trans (by decide)

/-- C10: once a Handle's key is absent from the operation table, polling the
Handle panics at the invalid-key slot lookup (modelled none), while dropping
it is a silent no-op: the table is unchanged and no cancellation is
submitted. -/
theorem invalid_key_poll_drop {T Out : Type} (C : CompletableImpl T Out) (key : Nat)
    (op p : Option T) (ops : Slab (Lifecycle T)) (cxw : Waker)
    (hget : ops.get key = none) :
    Op.poll2 C key op ops cxw = none ∧ Op.dropRun key p ops = some (ops, []) := by
  constructor <;> simp [Op.poll2, Op.dropRun, hget]

/-- Witness for C10 at an empty table. -/
theorem invalid_key_poll_drop_witness :
    Op.poll2 (⟨fun t _ => t, fun t _ => t⟩ : CompletableImpl Nat Nat) 0 none
        (⟨[]⟩ : Slab (Lifecycle Nat)) ⟨1⟩ = none ∧
    Op.dropRun 0 (some 4) (⟨[]⟩ : Slab (Lifecycle Nat)) = some (⟨[]⟩, []) := by
  exact invalid_key_poll_drop (⟨fun t _ => t, fun t _ => t⟩ : CompletableImpl Nat Nat) 0
    none (some 4) ⟨[]⟩ ⟨1⟩ (by decide)

end Cptio
